import Mathlib

/-!
Verification of the bitrate/resolution planner of `reducesizefordiscord.py`.

The planner's arithmetic (Python floats) is modelled over `ℚ` (exact real
arithmetic); every concrete instance proved below is far from any binary
rounding boundary, so the rational value and the double value agree.
Python's `int()` conversion truncates toward zero and is modelled by
`pytrunc`; Python's `%` on integers agrees with `Int.emod` for a positive
modulus.
-/

namespace ReduceSize

/-- Python `int()` applied to a real value: truncation toward zero. -/
def pytrunc (q : ℚ) : ℤ := if q < 0 then ⌈q⌉ else ⌊q⌋

/-- `CONTAINER_OVERHEAD = 0.98` (module constant, src line 28). -/
def CONTAINER_OVERHEAD : ℚ := 0.98

/-- `current_height = min(width, height) if width < height else height`
(src line 62 of `calculate_target_resolution`). -/
def current_height (width height : ℤ) : ℤ :=
  if width < height then min width height else height

/-- The tier selection of `calculate_target_resolution` (src lines 64-71):
`480` when `vid_kbps < min_kbps_for_720p` and the current tier height
exceeds 480, else `720` when `vid_kbps < min_kbps_for_1080p` and the
current tier height exceeds 720, else no rescale. The Python defaults are
`min_kbps_for_1080p = 1500`, `min_kbps_for_720p = 600`; they are passed
explicitly here. -/
def target_tier (width height vid_kbps min_kbps_for_1080p min_kbps_for_720p : ℤ) :
    Option ℤ :=
  if vid_kbps < min_kbps_for_720p ∧ 480 < current_height width height then some 480
  else if vid_kbps < min_kbps_for_1080p ∧ 720 < current_height width height then some 720
  else none

/-- `calculate_target_resolution` (src lines 50-81): pick a target tier; if
one is chosen, `scale_factor = target_height / height`, each new dimension
is `int(dim * scale_factor)` and then made even by subtracting `dim % 2`.
Returns `none` when no scaling is needed. -/
def calculate_target_resolution
    (width height vid_kbps min_kbps_for_1080p min_kbps_for_720p : ℤ) :
    Option (ℤ × ℤ) :=
  match target_tier width height vid_kbps min_kbps_for_1080p min_kbps_for_720p with
  | none => none
  | some target_height =>
      let scale_factor : ℚ := (target_height : ℚ) / (height : ℚ)
      let new_width := pytrunc ((width : ℚ) * scale_factor)
      let new_height := pytrunc ((height : ℚ) * scale_factor)
      some (new_width - new_width % 2, new_height - new_height % 2)

/-- The bit-budget computation of `reencode` (src lines 98-105):
`effective_mb = target_mb * CONTAINER_OVERHEAD`,
`bits_total = effective_mb * 1024 * 1024 * 8`,
`aud_bps = audio_kbps * 1000`,
`vid_bps = max(bits_total / dur - aud_bps, 100_000)`,
`vid_kbps = int(vid_bps / 1000)`. -/
def vid_kbps_plan (target_mb : ℚ) (audio_kbps : ℤ) (dur : ℚ) : ℤ :=
  let effective_mb := target_mb * CONTAINER_OVERHEAD
  let bits_total := effective_mb * 1024 * 1024 * 8
  let aud_bps : ℚ := (audio_kbps : ℚ) * 1000
  let vid_bps := max (bits_total / dur - aud_bps) 100000
  pytrunc (vid_bps / 1000)

/-- Errors a planning run can surface. `zeroDivision` is the Python
`ZeroDivisionError` raised by `bits_total / dur` when the probed duration
is zero (src line 104). `invalidInput` is the error the spec's taxonomy
names; no line of the source raises it. -/
inductive PlanError
  | zeroDivision
  | invalidInput
deriving DecidableEq

/-- The planning stage of `reencode` (src lines 93-105) with the Python
division-by-zero behaviour made explicit: the code performs no duration
validation of its own, so the only failure is the `ZeroDivisionError`
from `bits_total / dur` at duration zero; every other duration yields a
plan. -/
def reencode_plan (target_mb : ℚ) (audio_kbps : ℤ) (dur : ℚ) : Except PlanError ℤ :=
  if dur = 0 then Except.error PlanError.zeroDivision
  else Except.ok (vid_kbps_plan target_mb audio_kbps dur)

/-- Exit codes of the three external processes a run may start, in program
order: `ffprobe` (src line 41), `ffmpeg` pass 1 (src line 150), `ffmpeg`
pass 2 (src line 164). Zero means success. -/
structure ExtProcs where
  probeExit : ℤ
  pass1Exit : ℤ
  pass2Exit : ℤ

/-- Observable outcome of `main`: the process exit code and how many
encoder (`ffmpeg`) invocations were started before termination. -/
structure RunOutcome where
  exitCode : ℤ
  encodeCalls : ℕ
deriving DecidableEq

/-- Control flow of `main` (src lines 203-214): each external process runs
with `check=True`, so the first nonzero exit raises `CalledProcessError`,
which `main` catches and converts to `sys.exit(e.returncode)`; if all
succeed the program falls through and exits 0. -/
def run_main (w : ExtProcs) : RunOutcome :=
  if w.probeExit ≠ 0 then ⟨w.probeExit, 0⟩
  else if w.pass1Exit ≠ 0 then ⟨w.pass1Exit, 1⟩
  else if w.pass2Exit ≠ 0 then ⟨w.pass2Exit, 2⟩
  else ⟨0, 2⟩

/-! ### Helper lemmas -/

lemma pytrunc_eq_floor {q : ℚ} (h : 0 ≤ q) : pytrunc q = ⌊q⌋ := by
  simp [pytrunc, not_lt.2 h]

lemma pytrunc_max_floor_div (q : ℚ) : 100 ≤ pytrunc (max q 100000 / 1000) := by
  have h1 : (100 : ℚ) ≤ max q 100000 / 1000 := by
    have h := le_max_right q (100000 : ℚ)
    linarith
  rw [pytrunc_eq_floor (le_trans (by norm_num) h1)]
  exact Int.le_floor.2 (by exact_mod_cast h1)

/-! ### Claims -/

/-- C1: for every duration > 0, target size > 0 and audio bitrate ≥ 0, the
video bitrate computed by the planner is an integer ≥ 100: the 100 kbps
floor is applied unconditionally, no matter how small the size budget or
how long the duration. -/
theorem vid_kbps_floor_invariant (dur target_mb : ℚ) (audio_kbps : ℤ)
    (hdur : 0 < dur) (htgt : 0 < target_mb) (haud : 0 ≤ audio_kbps) :
    100 ≤ vid_kbps_plan target_mb audio_kbps dur := by
  simp only [vid_kbps_plan]
  exact pytrunc_max_floor_div _

/-- Witness for C1 at duration 120 s, target 9.8 MB, audio 96 kbps. -/
theorem vid_kbps_floor_invariant_witness :
    (0 : ℚ) < 120 ∧ (0 : ℚ) < 9.8 ∧ (0 : ℤ) ≤ 96 ∧
      100 ≤ vid_kbps_plan 9.8 96 120 :=
  ⟨by norm_num, by norm_num, by norm_num,
    vid_kbps_floor_invariant 120 9.8 96 (by norm_num) (by norm_num) (by norm_num)⟩

/-- C2: whenever the per-second bit budget minus audio bits is at least
100000, the computed video kbps is exactly the floor of that value divided
by 1000 - the floor clamp does not fire. -/
theorem vid_kbps_no_clamp (dur target_mb : ℚ) (audio_kbps : ℤ)
    (hdur : 0 < dur)
    (hbig : 100000 ≤ target_mb * CONTAINER_OVERHEAD * 1024 * 1024 * 8 / dur -
      (audio_kbps : ℚ) * 1000) :
    vid_kbps_plan target_mb audio_kbps dur =
      ⌊(target_mb * CONTAINER_OVERHEAD * 1024 * 1024 * 8 / dur -
        (audio_kbps : ℚ) * 1000) / 1000⌋ := by
  simp only [vid_kbps_plan]
  rw [max_eq_left hbig]
  exact pytrunc_eq_floor (div_nonneg (le_trans (by norm_num) hbig) (by norm_num))

/-- Witness for C2 at duration 120 s, target 9.8 MB, audio 96 kbps, where
the budget term is 575368.2602666... ≥ 100000. -/
theorem vid_kbps_no_clamp_witness :
    (0 : ℚ) < 120 ∧
    (100000 : ℚ) ≤ (9.8 : ℚ) * CONTAINER_OVERHEAD * 1024 * 1024 * 8 / 120 -
      ((96 : ℤ) : ℚ) * 1000 ∧
    vid_kbps_plan 9.8 96 120 =
      ⌊((9.8 : ℚ) * CONTAINER_OVERHEAD * 1024 * 1024 * 8 / 120 -
        ((96 : ℤ) : ℚ) * 1000) / 1000⌋ :=
  ⟨by norm_num, by norm_num [CONTAINER_OVERHEAD],
    vid_kbps_no_clamp 120 9.8 96 (by norm_num) (by norm_num [CONTAINER_OVERHEAD])⟩

/-- C3 counterexample: at duration -5 (not > 0) the planner does not fail
with any error - it produces the plan `ok 100` (the floor clamps, since
the per-second budget is negative). -/
theorem reencode_plan_no_validation_cex :
    reencode_plan 9.8 96 (-5) = Except.ok 100 := by
  have h5 : ((-5 : ℚ)) ≠ 0 := by norm_num
  have hmax : max ((9.8 : ℚ) * CONTAINER_OVERHEAD * 1024 * 1024 * 8 / (-5) -
      ((96 : ℤ) : ℚ) * 1000) 100000 = 100000 := by
    apply max_eq_right
    norm_num [CONTAINER_OVERHEAD]
  simp only [reencode_plan, if_neg h5, vid_kbps_plan, hmax]
  rw [pytrunc_eq_floor (by norm_num)]
  norm_num

/-- C3 amended: the code performs no duration validation. A negative
duration still yields a plan, clamped to the 100 kbps floor; a zero
duration surfaces as a `ZeroDivisionError` from `bits_total / dur`, not as
an `InvalidInput` error. -/
theorem reencode_plan_nonpositive_duration (target_mb : ℚ) (audio_kbps : ℤ)
    (dur : ℚ) (hdur : dur < 0) (htgt : 0 < target_mb) (haud : 0 ≤ audio_kbps) :
    reencode_plan target_mb audio_kbps dur =
      Except.ok (vid_kbps_plan target_mb audio_kbps dur) ∧
    vid_kbps_plan target_mb audio_kbps dur = 100 ∧
    reencode_plan target_mb audio_kbps 0 = Except.error PlanError.zeroDivision := by
  refine ⟨by simp [reencode_plan, ne_of_lt hdur], ?_, by simp [reencode_plan]⟩
  have hb : (0 : ℚ) < target_mb * CONTAINER_OVERHEAD * 1024 * 1024 * 8 := by
    have h98 : (0 : ℚ) < CONTAINER_OVERHEAD := by norm_num [CONTAINER_OVERHEAD]
    positivity
  have hdiv : target_mb * CONTAINER_OVERHEAD * 1024 * 1024 * 8 / dur < 0 :=
    div_neg_of_pos_of_neg hb hdur
  have haudq : (0 : ℚ) ≤ (audio_kbps : ℚ) := by exact_mod_cast haud
  have hmax : max (target_mb * CONTAINER_OVERHEAD * 1024 * 1024 * 8 / dur -
      (audio_kbps : ℚ) * 1000) 100000 = 100000 := by
    apply max_eq_right
    nlinarith
  simp only [vid_kbps_plan, hmax]
  rw [pytrunc_eq_floor (by norm_num)]
  norm_num

/-- Witness for the amended C3 at target 9.8 MB, audio 96 kbps,
duration -5 s. -/
theorem reencode_plan_nonpositive_duration_witness :
    (-5 : ℚ) < 0 ∧ (0 : ℚ) < 9.8 ∧ (0 : ℤ) ≤ 96 ∧
    (reencode_plan 9.8 96 (-5) = Except.ok (vid_kbps_plan 9.8 96 (-5)) ∧
      vid_kbps_plan 9.8 96 (-5) = 100 ∧
      reencode_plan 9.8 96 0 = Except.error PlanError.zeroDivision) :=
  ⟨by norm_num, by norm_num, by norm_num,
    reencode_plan_nonpositive_duration 9.8 96 (-5)
      (by norm_num) (by norm_num) (by norm_num)⟩

/-- C4 counterexample: at targetMB 9.8, duration 120 s, audio 96 kbps the
planner computes 575 kbps, not the 574 the claim states (the claimed
totalBits value 80530636.8 is miscomputed; 9.604 x 1048576 x 8 =
80564191.232). -/
theorem vid_kbps_spec_example_cex :
    vid_kbps_plan 9.8 96 120 = 575 ∧ vid_kbps_plan 9.8 96 120 ≠ 574 := by
  have hmax : max ((9.8 : ℚ) * CONTAINER_OVERHEAD * 1024 * 1024 * 8 / 120 -
      ((96 : ℤ) : ℚ) * 1000) 100000 = 1078815488 / 1875 := by
    rw [max_eq_left (by norm_num [CONTAINER_OVERHEAD])]
    norm_num [CONTAINER_OVERHEAD]
  have h : vid_kbps_plan 9.8 96 120 = 575 := by
    simp only [vid_kbps_plan, hmax]
    rw [pytrunc_eq_floor (by norm_num)]
    norm_num
  exact ⟨h, by rw [h]; norm_num⟩

/-- C4 amended: at targetMB 9.8, duration 120 s, audio 96 kbps:
effectiveMB = 9.604, totalBits = 80564191.232 bits, videoBitsPerSecond =
1078815488/1875 = 575368.2602666... bps, and videoKbps = 575. -/
theorem vid_kbps_spec_example :
    (9.8 : ℚ) * CONTAINER_OVERHEAD = 9.604 ∧
    (9.8 : ℚ) * CONTAINER_OVERHEAD * 1024 * 1024 * 8 = 80564191.232 ∧
    (9.8 : ℚ) * CONTAINER_OVERHEAD * 1024 * 1024 * 8 / 120 -
      ((96 : ℤ) : ℚ) * 1000 = 1078815488 / 1875 ∧
    vid_kbps_plan 9.8 96 120 = 575 := by
  refine ⟨by norm_num [CONTAINER_OVERHEAD], by norm_num [CONTAINER_OVERHEAD],
    by norm_num [CONTAINER_OVERHEAD], ?_⟩
  have hmax : max ((9.8 : ℚ) * CONTAINER_OVERHEAD * 1024 * 1024 * 8 / 120 -
      ((96 : ℤ) : ℚ) * 1000) 100000 = 1078815488 / 1875 := by
    rw [max_eq_left (by norm_num [CONTAINER_OVERHEAD])]
    norm_num [CONTAINER_OVERHEAD]
  simp only [vid_kbps_plan, hmax]
  rw [pytrunc_eq_floor (by norm_num)]
  norm_num

/-- C5 counterexample: at width 1920, height 1080, videoKbps 500 the code
rescales to (852, 480), not to width 854 as claimed:
floor(1920 x 480/1080) = floor(853.33) = 853, and clearing the low bit
gives 852, not 854. -/
theorem resolution_1920_1080_cex :
    calculate_target_resolution 1920 1080 500 1500 600 = some (852, 480) ∧
    calculate_target_resolution 1920 1080 500 1500 600 ≠ some (854, 480) := by
  have h : calculate_target_resolution 1920 1080 500 1500 600 = some (852, 480) := by
    norm_num [calculate_target_resolution, target_tier, current_height, pytrunc]
  exact ⟨h, by rw [h]; simp⟩

/-- C5 amended: at width 1920, height 1080, videoKbps 500 the decision is a
rescale to target tier height 480 with resulting width 852
(floor(1920 x 480/1080) = 853, cleared to even gives 852). -/
theorem resolution_1920_1080 :
    calculate_target_resolution 1920 1080 500 1500 600 = some (852, 480) ∧
    (852 : ℤ) = ⌊(1920 : ℚ) * 480 / 1080⌋ - ⌊(1920 : ℚ) * 480 / 1080⌋ % 2 := by
  constructor
  · norm_num [calculate_target_resolution, target_tier, current_height, pytrunc]
  · norm_num

/-- C6: the decision follows the fixed first-match-wins order: with the
current tier height being the smaller dimension when width < height and
otherwise the height, a videoKbps below 600 with current tier height above
480 selects the 480p tier; otherwise a videoKbps below 1500 with current
tier height above 720 selects the 720p tier; otherwise there is no
rescale. In particular width 1280, height 720, videoKbps 1000 yields no
rescale. -/
theorem resolution_decision_order (w h k : ℤ) (hw : 0 < w) (hh : 0 < h) :
    ((k < 600 ∧ 480 < current_height w h) →
      target_tier w h k 1500 600 = some 480) ∧
    (¬(k < 600 ∧ 480 < current_height w h) →
      (k < 1500 ∧ 720 < current_height w h) →
      target_tier w h k 1500 600 = some 720) ∧
    (¬(k < 600 ∧ 480 < current_height w h) →
      ¬(k < 1500 ∧ 720 < current_height w h) →
      calculate_target_resolution w h k 1500 600 = none) ∧
    calculate_target_resolution 1280 720 1000 1500 600 = none := by
  refine ⟨?_, ?_, ?_,
    by norm_num [calculate_target_resolution, target_tier, current_height]⟩
  · intro hc
    simp [target_tier, hc]
  · intro hn hc
    simp [target_tier, hn, hc]
  · intro hn1 hn2
    simp [calculate_target_resolution, target_tier, hn1, hn2]

/-- Witness for C6 at width 1920, height 1080, videoKbps 500: the first
branch fires and selects the 480p tier. -/
theorem resolution_decision_order_witness :
    (0 : ℤ) < 1920 ∧ (0 : ℤ) < 1080 ∧
    target_tier 1920 1080 500 1500 600 = some 480 :=
  ⟨by norm_num, by norm_num,
    (resolution_decision_order 1920 1080 500 (by norm_num) (by norm_num)).1
      (by norm_num [current_height])⟩

/-! ### Helper lemmas for the scaling branch -/

lemma current_height_le (w h : ℤ) : current_height w h ≤ h := by
  unfold current_height
  split_ifs
  · exact min_le_right w h
  · exact le_refl h

lemma target_tier_pos_lt {w h k m1 m2 t : ℤ}
    (ht : target_tier w h k m1 m2 = some t) : 0 < t ∧ t < h := by
  have hch := current_height_le w h
  unfold target_tier at ht
  split_ifs at ht with h1 h2
  · obtain rfl : t = 480 := (Option.some.inj ht).symm
    exact ⟨by norm_num, lt_of_lt_of_le h1.2 hch⟩
  · obtain rfl : t = 720 := (Option.some.inj ht).symm
    exact ⟨by norm_num, lt_of_lt_of_le h2.2 hch⟩

lemma calculate_target_resolution_none {w h k m1 m2 : ℤ}
    (ht : target_tier w h k m1 m2 = none) :
    calculate_target_resolution w h k m1 m2 = none := by
  unfold calculate_target_resolution
  rw [ht]

lemma calculate_target_resolution_some {w h k m1 m2 t : ℤ}
    (ht : target_tier w h k m1 m2 = some t) :
    calculate_target_resolution w h k m1 m2 =
      some (pytrunc ((w : ℚ) * ((t : ℚ) / (h : ℚ))) -
              pytrunc ((w : ℚ) * ((t : ℚ) / (h : ℚ))) % 2,
            pytrunc ((h : ℚ) * ((t : ℚ) / (h : ℚ))) -
              pytrunc ((h : ℚ) * ((t : ℚ) / (h : ℚ))) % 2) := by
  unfold calculate_target_resolution
  rw [ht]

lemma floor_evenclear_bounds (x : ℚ) :
    ((⌊x⌋ - ⌊x⌋ % 2 : ℤ) : ℚ) ≤ x ∧ x - 2 < ((⌊x⌋ - ⌊x⌋ % 2 : ℤ) : ℚ) := by
  have h1 : (⌊x⌋ : ℚ) ≤ x := Int.floor_le x
  have h2 : x - 1 < (⌊x⌋ : ℚ) := Int.sub_one_lt_floor x
  have h3 : (0 : ℤ) ≤ ⌊x⌋ % 2 := Int.emod_nonneg _ (by norm_num)
  have h4 : ⌊x⌋ % 2 < 2 := Int.emod_lt_of_pos _ (by norm_num)
  have h4' : ⌊x⌋ % 2 ≤ 1 := by omega
  have h3q : (0 : ℚ) ≤ ((⌊x⌋ % 2 : ℤ) : ℚ) := by exact_mod_cast h3
  have h4q : ((⌊x⌋ % 2 : ℤ) : ℚ) ≤ 1 := by exact_mod_cast h4'
  constructor
  · push_cast
    linarith
  · push_cast
    linarith

/-- C7 counterexample: at (1920, 1080, 500) the returned width 852 differs
from the exact scaled width 1920 x (480/1080) = 853.33... by 4/3 > 1, so
the dimensions are not within one pixel of exact scaling. -/
theorem downscale_pixel_bound_cex :
    calculate_target_resolution 1920 1080 500 1500 600 = some (852, 480) ∧
    1 < |(852 : ℚ) - 1920 * ((480 : ℚ) / 1080)| := by
  constructor
  · norm_num [calculate_target_resolution, target_tier, current_height, pytrunc]
  · have h : (852 : ℚ) - 1920 * ((480 : ℚ) / 1080) = -(4 / 3) := by norm_num
    rw [h, abs_neg, abs_of_pos (by norm_num)]
    norm_num

/-- C7 amended: whenever the decision returns a downscale target, both
dimensions are even, and each differs from the exact scaled value (the
dimension times scaleFactor = targetTierHeight/height) by strictly less
than 2 pixels (the floor loses less than 1 and clearing the low bit loses
at most 1 more; 1 pixel alone is not a bound, as the counterexample
shows). -/
theorem downscale_even_and_near_exact (w h k nw nh : ℤ) (hw : 0 < w) (hh : 0 < h)
    (hres : calculate_target_resolution w h k 1500 600 = some (nw, nh)) :
    nw % 2 = 0 ∧ nh % 2 = 0 ∧
    ∃ t : ℤ, target_tier w h k 1500 600 = some t ∧
      |(nw : ℚ) - (w : ℚ) * ((t : ℚ) / (h : ℚ))| < 2 ∧
      |(nh : ℚ) - (h : ℚ) * ((t : ℚ) / (h : ℚ))| < 2 := by
  cases htt : target_tier w h k 1500 600 with
  | none =>
      rw [calculate_target_resolution_none htt] at hres
      exact absurd hres (by simp)
  | some t =>
      obtain ⟨ht0, hth⟩ := target_tier_pos_lt htt
      rw [calculate_target_resolution_some htt] at hres
      have hp := Option.some.inj hres
      rw [Prod.mk.injEq] at hp
      obtain ⟨h1, h2⟩ := hp
      subst h1
      subst h2
      have hwq : (0 : ℚ) < (w : ℚ) := by exact_mod_cast hw
      have hhq : (0 : ℚ) < (h : ℚ) := by exact_mod_cast hh
      have htq : (0 : ℚ) < (t : ℚ) := by exact_mod_cast ht0
      have hsf : (0 : ℚ) ≤ (t : ℚ) / (h : ℚ) := div_nonneg htq.le hhq.le
      have hx : (0 : ℚ) ≤ (w : ℚ) * ((t : ℚ) / (h : ℚ)) := mul_nonneg hwq.le hsf
      have hx2 : (0 : ℚ) ≤ (h : ℚ) * ((t : ℚ) / (h : ℚ)) := mul_nonneg hhq.le hsf
      rw [pytrunc_eq_floor hx, pytrunc_eq_floor hx2]
      obtain ⟨hb1, hb2⟩ := floor_evenclear_bounds ((w : ℚ) * ((t : ℚ) / (h : ℚ)))
      obtain ⟨hb3, hb4⟩ := floor_evenclear_bounds ((h : ℚ) * ((t : ℚ) / (h : ℚ)))
      refine ⟨by omega, by omega, t, rfl, ?_, ?_⟩
      · rw [abs_lt]
        push_cast at hb1 hb2 ⊢
        constructor <;> linarith
      · rw [abs_lt]
        push_cast at hb3 hb4 ⊢
        constructor <;> linarith

/-- Witness for the amended C7 at (1920, 1080, 500), which scales to
(852, 480) at tier 480. -/
theorem downscale_even_and_near_exact_witness :
    (0 : ℤ) < 1920 ∧ (0 : ℤ) < 1080 ∧
    calculate_target_resolution 1920 1080 500 1500 600 = some (852, 480) ∧
    ((852 : ℤ) % 2 = 0 ∧ (480 : ℤ) % 2 = 0 ∧
      ∃ t : ℤ, target_tier 1920 1080 500 1500 600 = some t ∧
        |((852 : ℤ) : ℚ) - ((1920 : ℤ) : ℚ) * ((t : ℚ) / ((1080 : ℤ) : ℚ))| < 2 ∧
        |((480 : ℤ) : ℚ) - ((1080 : ℤ) : ℚ) * ((t : ℚ) / ((1080 : ℤ) : ℚ))| < 2) :=
  ⟨by norm_num, by norm_num,
    by norm_num [calculate_target_resolution, target_tier, current_height, pytrunc],
    downscale_even_and_near_exact 1920 1080 500 852 480 (by norm_num) (by norm_num)
      (by norm_num [calculate_target_resolution, target_tier, current_height, pytrunc])⟩

/-- C9: the decision never upscales: whenever a downscale target
(newWidth, newHeight) is returned, newWidth ≤ width and
newHeight ≤ height. -/
theorem no_upscale (w h k nw nh : ℤ) (hw : 0 < w) (hh : 0 < h)
    (hres : calculate_target_resolution w h k 1500 600 = some (nw, nh)) :
    nw ≤ w ∧ nh ≤ h := by
  cases htt : target_tier w h k 1500 600 with
  | none =>
      rw [calculate_target_resolution_none htt] at hres
      exact absurd hres (by simp)
  | some t =>
      obtain ⟨ht0, hth⟩ := target_tier_pos_lt htt
      rw [calculate_target_resolution_some htt] at hres
      have hp := Option.some.inj hres
      rw [Prod.mk.injEq] at hp
      obtain ⟨h1, h2⟩ := hp
      subst h1
      subst h2
      have hwq : (0 : ℚ) < (w : ℚ) := by exact_mod_cast hw
      have hhq : (0 : ℚ) < (h : ℚ) := by exact_mod_cast hh
      have htq : (0 : ℚ) < (t : ℚ) := by exact_mod_cast ht0
      have hsf0 : (0 : ℚ) ≤ (t : ℚ) / (h : ℚ) := div_nonneg htq.le hhq.le
      have hsf1 : (t : ℚ) / (h : ℚ) ≤ 1 := by
        rw [div_le_one hhq]
        exact_mod_cast le_of_lt hth
      have hx : (0 : ℚ) ≤ (w : ℚ) * ((t : ℚ) / (h : ℚ)) := mul_nonneg hwq.le hsf0
      have hteq : (h : ℚ) * ((t : ℚ) / (h : ℚ)) = (t : ℚ) := by
        rw [mul_comm, div_mul_cancel₀ _ (ne_of_gt hhq)]
      constructor
      · rw [pytrunc_eq_floor hx]
        have hle : (w : ℚ) * ((t : ℚ) / (h : ℚ)) ≤ (w : ℚ) :=
          mul_le_of_le_one_right hwq.le hsf1
        have hf : ⌊(w : ℚ) * ((t : ℚ) / (h : ℚ))⌋ ≤ w := by
          have := Int.floor_le_floor hle
          rwa [Int.floor_intCast] at this
        omega
      · rw [hteq, pytrunc_eq_floor htq.le, Int.floor_intCast]
        omega

/-- Witness for C9 at (1920, 1080, 500): the result (852, 480) satisfies
852 ≤ 1920 and 480 ≤ 1080. -/
theorem no_upscale_witness :
    (0 : ℤ) < 1920 ∧ (0 : ℤ) < 1080 ∧
    calculate_target_resolution 1920 1080 500 1500 600 = some (852, 480) ∧
    ((852 : ℤ) ≤ 1920 ∧ (480 : ℤ) ≤ 1080) :=
  ⟨by norm_num, by norm_num,
    by norm_num [calculate_target_resolution, target_tier, current_height, pytrunc],
    no_upscale 1920 1080 500 852 480 (by norm_num) (by norm_num)
      (by norm_num [calculate_target_resolution, target_tier, current_height, pytrunc])⟩

/-- C8: if the probe exits nonzero, the run terminates with that same exit
status before any encode invocation; more generally each external-process
failure makes the program exit with that process's own code, and the
program exits 0 when all succeed. -/
theorem main_exit_propagation (w : ExtProcs) :
    (w.probeExit ≠ 0 → run_main w = ⟨w.probeExit, 0⟩) ∧
    (w.probeExit = 0 → w.pass1Exit ≠ 0 → run_main w = ⟨w.pass1Exit, 1⟩) ∧
    (w.probeExit = 0 → w.pass1Exit = 0 → w.pass2Exit ≠ 0 →
      run_main w = ⟨w.pass2Exit, 2⟩) ∧
    (w.probeExit = 0 → w.pass1Exit = 0 → w.pass2Exit = 0 →
      (run_main w).exitCode = 0) := by
  refine ⟨?_, ?_, ?_, ?_⟩ <;> intros <;> simp_all [run_main]

/-- Witness for C8: a probe failing with exit status 3 makes the run exit
with status 3 and zero encode invocations. -/
theorem main_exit_propagation_witness :
    run_main ⟨3, 0, 0⟩ = ⟨3, 0⟩ :=
  (main_exit_propagation ⟨3, 0, 0⟩).1 (by norm_num)

/-- C10: for the extreme portrait source width 481, height 231000,
videoKbps 100, the decision returns a pair whose width component is 0
(int(481 x 480/231000) = int(0.99948...) = 0) rather than failing or
clamping: positive output dimensions are not guaranteed. -/
theorem degenerate_zero_width :
    calculate_target_resolution 481 231000 100 1500 600 = some (0, 480) := by
  norm_num [calculate_target_resolution, target_tier, current_height, pytrunc]

end ReduceSize
